import Mathlib

/-!
Shallow embedding of `standalone_chessclock.py` (class `ChessClock` and its
methods).  Durations (Python `timedelta`) are modelled as integer microsecond
counts, instants (`datetime`) as integer microsecond timestamps, and the
serial port as the list of bytes (characters) written to it so far.  Each
definition cites the source lines it embeds.
-/

/-- A Python instance attribute: `unbound` models an attribute that was never
assigned on the instance (reading it raises `AttributeError`), while `val v`
models an attribute holding `v` (`val none` is Python `None`). -/
inductive PAttr (α : Type) where
  | unbound : PAttr α
  | val : Option α → PAttr α
deriving DecidableEq

/-- The mutable state of a `ChessClock` object (source lines 120-159), plus
`serial_out`, the transcript of bytes written to the serial port
`self.chess_clock`.  `timedelta` values are microseconds (`Int`), `datetime`
values are microsecond timestamps (`Int`).  The serial handle, logger,
`time_lock`, berserk client and countdown-thread handle carry no clock state
and are not modelled.  `move_time` is a `PAttr` because `__init__` never
assigns it: it is first created by `move_made`, `initialize_clock` or
`start_new_game`. -/
structure ChessClock where
  lcd_length : Nat
  displayed_btime : Option Int
  displayed_wtime : Option Int
  white_to_move : Bool
  game_over_event : Bool
  time_left_at_move : Option Int
  move_time : PAttr Int
  serial_out : List Char
deriving DecidableEq

/-- Fresh `ChessClock` state after `__init__` (lines 120-159): lcd width 16,
both displayed times `None`, both threading events cleared,
`time_left_at_move = None`, nothing yet written to the serial port, and the
`move_time` attribute not yet bound. -/
def init_chess_clock : ChessClock :=
  { lcd_length := 16
    displayed_btime := none
    displayed_wtime := none
    white_to_move := false
    game_over_event := false
    time_left_at_move := none
    move_time := PAttr.unbound
    serial_out := [] }

/-- `ChessClock.move_made` (lines 161-177): record `now` into `move_time`;
then, if the `white_to_move` event is set, record `displayed_wtime` into
`time_left_at_move` and clear `white_to_move`, else record `displayed_btime`
and set `white_to_move`. -/
def move_made (cc : ChessClock) (now : Int) : ChessClock :=
  if cc.white_to_move then
    { cc with
        move_time := PAttr.val (some now)
        time_left_at_move := cc.displayed_wtime
        white_to_move := false }
  else
    { cc with
        move_time := PAttr.val (some now)
        time_left_at_move := cc.displayed_btime
        white_to_move := true }

/-- `ChessClock.game_over` (lines 188-203): set `game_over_event`; when
`display_message` is true, write the single byte `'2'`.  The logging calls
are not modelled. -/
def game_over (cc : ChessClock) (display_message : Bool) : ChessClock :=
  let cc2 := { cc with game_over_event := true }
  if display_message then
    { cc2 with serial_out := cc2.serial_out ++ ['2'] }
  else cc2

/-- `ChessClock.send_string` (lines 205-210): write the byte `'3'`, then the
message bytes. -/
def send_string (cc : ChessClock) (message : List Char) : ChessClock :=
  { cc with serial_out := cc.serial_out ++ '3' :: message }

/-- The wire write and turn reset of `ChessClock.start_new_game`
(lines 212-222): write the single byte `'4'` and set `white_to_move`.  The
remainder of the method consumes the remote berserk event stream (external
blocking I/O, out of scope); the clock mutations it performs are modelled by
`initialize_clock` and `move_made`. -/
def start_new_game (cc : ChessClock) : ChessClock :=
  { cc with
      serial_out := cc.serial_out ++ ['4']
      white_to_move := true }

/-- `ChessClock.show_splash` (lines 237-239, duplicated verbatim at
lines 256-258; the second definition harmlessly shadows the first): write
the single byte `'5'`. -/
def show_splash (cc : ChessClock) : ChessClock :=
  { cc with serial_out := cc.serial_out ++ ['5'] }

/-- `ChessClock.white_won` (lines 241-244, duplicated at 260-263): write the
single byte `'6'`, then call `game_over(display_message=False)`. -/
def white_won (cc : ChessClock) : ChessClock :=
  game_over { cc with serial_out := cc.serial_out ++ ['6'] } false

/-- `ChessClock.black_won` (lines 246-249, duplicated at 265-268): write the
single byte `'7'`, then call `game_over(display_message=False)`. -/
def black_won (cc : ChessClock) : ChessClock :=
  game_over { cc with serial_out := cc.serial_out ++ ['7'] } false

/-- `ChessClock.drawn_game` (lines 251-254, duplicated at 270-273): write
the single byte `'8'`, then call `game_over(display_message=False)`. -/
def drawn_game (cc : ChessClock) : ChessClock :=
  game_over { cc with serial_out := cc.serial_out ++ ['8'] } false

/-- Modelled from the spec: the Python source contains no HELLO emitter (the
byte `'@'` appears only in the quoted `chess_clock.ino` receiver snippet).
The spec's wire table in section 6 assigns HELLO the reserved code byte
`'@'` with no payload. -/
def hello (cc : ChessClock) : ChessClock :=
  { cc with serial_out := cc.serial_out ++ ['@'] }

/-- Decimal digits of a natural number, most significant first (core
`Nat.toDigits`; renders 0 as a single `'0'`). -/
def natDigits (n : Nat) : List Char := Nat.toDigits 10 n

/-- Python percent-d formatting of an integer. -/
def intDigits (i : Int) : List Char :=
  if i < 0 then '-' :: natDigits i.natAbs else natDigits i.natAbs

/-- Python percent-02d formatting (zero-pad to two digits). -/
def pad2 (n : Nat) : List Char :=
  let d := natDigits n
  List.replicate (2 - d.length) '0' ++ d

/-- Python percent-06d formatting (zero-pad to six digits). -/
def pad6 (n : Nat) : List Char :=
  let d := natDigits n
  List.replicate (6 - d.length) '0' ++ d

/-- Python `str(timedelta)` for a duration of `us` microseconds.
`timedelta` normalises to `(days, seconds, microseconds)` with
`0 <= seconds < 86400` and `0 <= microseconds < 1000000` (`days` may be
negative), then prints `H:MM:SS`, prefixed with `D day, ` or `D days, `
when `days` is nonzero (plural unless `abs days = 1`) and suffixed with
`.ffffff` when `microseconds` is nonzero. -/
def tdStr (us : Int) : List Char :=
  let day_us : Int := 86400000000
  let days : Int := us.fdiv day_us
  let rem : Nat := (us.fmod day_us).toNat
  let microseconds : Nat := rem % 1000000
  let seconds : Nat := rem / 1000000
  let base : List Char :=
    natDigits (seconds / 3600) ++ ':' :: pad2 (seconds / 60 % 60) ++ ':' :: pad2 (seconds % 60)
  let withDays : List Char :=
    if days = 0 then base
    else
      intDigits days ++ " day".data ++ (if days.natAbs = 1 then [] else ['s'])
        ++ ", ".data ++ base
  if microseconds = 0 then withDays else withDays ++ '.' :: pad6 microseconds

/-- The padding loop of `create_timestamp` (lines 310-311 and 317-318):
`while` the line is shorter than the width `n`, append one space.  Each pass
appends exactly one character, so `n` units of fuel always suffice for the
loop to reach its exit condition. -/
def pad_spaces_go (n : Nat) : Nat → List Char → List Char
  | 0, line => line
  | fuel + 1, line =>
    if line.length < n then pad_spaces_go n fuel (line ++ [' ']) else line

/-- The padding loop of `create_timestamp`, started with enough fuel. -/
def pad_spaces (n : Nat) (line : List Char) : List Char :=
  pad_spaces_go n n line

/-- Truncation or padding of one display line to the lcd width
(lines 307-311 and 314-318, identical for the white and the black line):
slice to the first `n` characters when strictly longer than `n`, otherwise
pad with spaces up to `n`. -/
def fit_lcd (n : Nat) (line : List Char) : List Char :=
  if line.length > n then line.take n else pad_spaces n line

/-- `ChessClock.create_timestamp` (lines 299-323): first overwrite the
stored `displayed_wtime` and `displayed_btime` with the two arguments
(lines 302-304, under `time_lock`), then build the lines `W: ` + `str wtime`
and `B: ` + `str btime`, each truncated or space-padded to `lcd_length`,
and return their concatenation.  The lock and the logging are not modelled
(the embedding is single-threaded). -/
def create_timestamp (cc : ChessClock) (wtime btime : Int) : ChessClock × List Char :=
  let cc2 := { cc with displayed_wtime := some wtime, displayed_btime := some btime }
  let white_time := fit_lcd cc2.lcd_length (('W' :: ": ".data) ++ tdStr wtime)
  let black_time := fit_lcd cc2.lcd_length (('B' :: ": ".data) ++ tdStr btime)
  (cc2, white_time ++ black_time)

/-- `ChessClock.updateLCD` (lines 179-186): build the timestamp (which also
rewrites the stored displayed times) and send it with `send_string`. -/
def updateLCD (cc : ChessClock) (wtime btime : Int) : ChessClock :=
  let p := create_timestamp cc wtime btime
  send_string p.1 p.2

/-- `ChessClock.did_flag` (lines 325-331): true iff
`player_time.total_seconds() <= 0`.  For a duration of `t` microseconds,
`total_seconds()` is the real number `t / 1000000`, which is nonpositive
exactly when `t` is. -/
def did_flag (player_time : Int) : Bool :=
  if player_time ≤ 0 then true else false

/-- Control-flow outcome of one iteration of the `while True` loop in
`ChessClock.time_keeper` (lines 334-387). -/
inductive TickOutcome where
  /-- The loop raised the `NicLinkGameOver` exception because
  `game_over_event` was set (lines 340-344). -/
  | raisedGameOver : TickOutcome
  /-- Reading `chess_clock.move_time` raised `AttributeError`: the attribute
  is created by `move_made`, `initialize_clock` or `start_new_game`, never
  by `__init__`, so it is unbound before any of those has run. -/
  | attrError : TickOutcome
  /-- One of the four `None` guards was hit (lines 346-357): sleep for
  `TIME_REFRESH` and continue with the next iteration. -/
  | sleep : TickOutcome
  /-- A flag was detected: a won command was written and `NicLinkGameOver`
  was raised (lines 367-369 and 381-383); `white_flagged` records which
  branch raised. -/
  | raisedFlag : (white_flagged : Bool) → TickOutcome
  /-- The iteration ran `updateLCD` and slept until the next period. -/
  | rendered : TickOutcome
deriving DecidableEq

/-- One iteration of `ChessClock.time_keeper` (lines 334-387) taken at
instant `now` (the iteration's `datetime.now()`), returning the updated
state and the iteration's control-flow outcome.  Three source details worth
noting: line 371 has the white branch display `(new_wtime,
displayed_btime)`; line 385 has the black branch display `(displayed_btime,
new_btime)` — its first argument, the *white* position of `updateLCD`, is
`displayed_btime`; and line 381 has the black flag check read the stored
`displayed_btime`, not the freshly computed `new_btime`. -/
def time_keeper_step (cc : ChessClock) (now : Int) : ChessClock × TickOutcome :=
  if cc.game_over_event then (cc, TickOutcome.raisedGameOver)
  else
    match cc.move_time with
    | PAttr.unbound => (cc, TickOutcome.attrError)
    | PAttr.val none => (cc, TickOutcome.sleep)
    | PAttr.val (some move_time) =>
      match cc.time_left_at_move with
      | none => (cc, TickOutcome.sleep)
      | some time_left_at_move =>
        match cc.displayed_btime with
        | none => (cc, TickOutcome.sleep)
        | some displayed_btime =>
          match cc.displayed_wtime with
          | none => (cc, TickOutcome.sleep)
          | some _ =>
            if cc.white_to_move then
              let new_wtime := time_left_at_move - (now - move_time)
              if did_flag new_wtime then
                (white_won cc, TickOutcome.raisedFlag true)
              else
                (updateLCD cc new_wtime displayed_btime, TickOutcome.rendered)
            else
              let new_btime := time_left_at_move - (now - move_time)
              if did_flag displayed_btime then
                (black_won cc, TickOutcome.raisedFlag false)
              else
                (updateLCD cc displayed_btime new_btime, TickOutcome.rendered)

/-- The state-reset prefix of `ChessClock.initialize_clock` (lines 283-291):
`move_time = None`, `white_to_move.set()`, displayed times taken from the
event's millisecond values (`timedelta(milliseconds=x)` is `1000 * x`
microseconds), `time_left_at_move = None`.  This is exactly the part of
`initialize_clock` that runs before the seeding `move_made()` call on
line 293, i.e. the `initialize` operation in the spec's vocabulary. -/
def initialize_reset (cc : ChessClock) (wtime_ms btime_ms : Int) : ChessClock :=
  { cc with
      move_time := PAttr.val none
      white_to_move := true
      displayed_wtime := some (1000 * wtime_ms)
      displayed_btime := some (1000 * btime_ms)
      time_left_at_move := none }

/-- `ChessClock.initialize_clock` (lines 275-297) at instant `now`: the
state reset of lines 283-291 followed by the seeding `move_made()` call of
line 293.  The countdown-thread liveness check (lines 279-281) and the
thread start (lines 296-297) belong to the threading machinery; the started
loop itself is modelled by `time_keeper_step`. -/
def initialize_clock (cc : ChessClock) (wtime_ms btime_ms : Int) (now : Int) : ChessClock :=
  move_made (initialize_reset cc wtime_ms btime_ms) now

/-! ## Helper lemmas about the line-padding loop -/

theorem pad_spaces_go_eq (n : Nat) :
    ∀ (fuel : Nat) (line : List Char), n - line.length ≤ fuel →
      pad_spaces_go n fuel line = line ++ List.replicate (n - line.length) ' ' := by
  intro fuel
  induction fuel with
  | zero =>
    intro line h
    have h0 : n - line.length = 0 := Nat.le_zero.mp h
    simp [pad_spaces_go, h0]
  | succ f ih =>
    intro line h
    by_cases hlt : line.length < n
    · have hrec := ih (line ++ [' ']) (by simp; omega)
      have harith : n - line.length = (n - (line.length + 1)) + 1 := by omega
      simp only [pad_spaces_go, if_pos hlt, hrec, List.length_append, List.length_singleton]
      rw [List.append_assoc, harith, List.replicate_succ]
      rfl
    · have h0 : n - line.length = 0 := by omega
      simp [pad_spaces_go, hlt, h0]

theorem pad_spaces_eq (n : Nat) (line : List Char) :
    pad_spaces n line = line ++ List.replicate (n - line.length) ' ' :=
  pad_spaces_go_eq n n line (Nat.sub_le n line.length)

theorem fit_lcd_eq (n : Nat) (line : List Char) :
    fit_lcd n line = line.take n ++ List.replicate (n - line.length) ' ' := by
  unfold fit_lcd
  by_cases h : line.length > n
  · have h0 : n - line.length = 0 := by omega
    simp [h, h0]
  · have htake : line.take n = line := List.take_of_length_le (by omega)
    simp [h, pad_spaces_eq, htake]

theorem fit_lcd_length (n : Nat) (line : List Char) :
    (fit_lcd n line).length = n := by
  rw [fit_lcd_eq]
  simp only [List.length_append, List.length_take, List.length_replicate]
  omega

/-! ## Claim theorems -/

/-- C1: In the spec's flag scenario — `initialize(2s, 60s)`, the seeding
`onMoveMade(t0)`, `tick(t0+3s)` — the code does not emit BLACK_WON and does
not set `gameOver`: the seed left `white_to_move` cleared, so the tick takes
the black branch, whose flag check reads the stale `displayed_btime` (60s)
rather than the fresh extrapolation (-1s), and a SHOW_TEXT frame is sent
instead.  Moreover when a live white side does flag (after one further
`move_made` white is live with 60s; ticked 61s later) the code emits
WHITE_WON (`'6'`) — the flagged side's own win — and never BLACK_WON
(`'7'`), while it does set `gameOver`. -/
theorem flag_scenario_behavior :
    (time_keeper_step (initialize_clock init_chess_clock 2000 60000 0) 3000000).2
        = TickOutcome.rendered
  ∧ ((time_keeper_step (initialize_clock init_chess_clock 2000 60000 0) 3000000).1).game_over_event
        = false
  ∧ '7' ∉ ((time_keeper_step (initialize_clock init_chess_clock 2000 60000 0) 3000000).1).serial_out
  ∧ (time_keeper_step (move_made (initialize_clock init_chess_clock 2000 60000 0) 0) 61000000).2
        = TickOutcome.raisedFlag true
  ∧ '6' ∈ ((time_keeper_step (move_made (initialize_clock init_chess_clock 2000 60000 0) 0) 61000000).1).serial_out
  ∧ '7' ∉ ((time_keeper_step (move_made (initialize_clock init_chess_clock 2000 60000 0) 0) 61000000).1).serial_out
  ∧ ((time_keeper_step (move_made (initialize_clock init_chess_clock 2000 60000 0) 0) 61000000).1).game_over_event
        = true := by
  decide

/-- C2: Every `move_made` call flips `white_to_move` — including the seeding
call that `initialize_clock` performs itself.  Because `initialize_clock`
first sets `white_to_move` and then immediately seeds via `move_made`, the
seed leaves `white_to_move = false`: black's clock, not white's, is the one
`time_keeper` extrapolates right after initialization; one subsequent call
makes white's clock live and two make black's live again — the opposite
parity of the claim. -/
theorem seed_turn_behavior :
    (∀ (cc : ChessClock) (now : Int),
        (move_made cc now).white_to_move = !cc.white_to_move)
  ∧ (initialize_clock init_chess_clock 2000 60000 0).white_to_move = false
  ∧ (move_made (initialize_clock init_chess_clock 2000 60000 0) 1000000).white_to_move = true
  ∧ (move_made (move_made (initialize_clock init_chess_clock 2000 60000 0) 1000000) 2000000).white_to_move
        = false := by
  refine ⟨?_, by decide, by decide, by decide⟩
  intro cc now
  by_cases h : cc.white_to_move <;> simp [move_made, h]

/-- C3: A tick in the black-to-move case does not leave white's stored time
untouched: line 385 passes `displayed_btime` as `updateLCD`'s *white*
argument, so `displayed_wtime` is overwritten with black's old stored time.
Concretely, after `initialize_clock(80s, 60s)` at t0 (whose seed makes black
live), a tick 5s later changes `displayed_wtime` from 80s to 60s. -/
theorem tick_black_branch_clobbers_white_time :
    (initialize_clock init_chess_clock 80000 60000 0).displayed_wtime = some 80000000
  ∧ (initialize_clock init_chess_clock 80000 60000 0).white_to_move = false
  ∧ (time_keeper_step (initialize_clock init_chess_clock 80000 60000 0) 5000000).2
        = TickOutcome.rendered
  ∧ ((time_keeper_step (initialize_clock init_chess_clock 80000 60000 0) 5000000).1).displayed_wtime
        = some 60000000 := by
  decide

/-- C4: The flag check is not applied to the fresh extrapolation in the
black-to-move branch: after `initialize_clock(2s, 5s)` at t0 (black live
with seeded 2s), a tick 3s later has fresh remaining -1s — `did_flag` of the
fresh value is true — yet no flag is raised and no `'7'` is written, because
line 381 checks the stale `displayed_btime` = 5s.  The white-to-move branch
does check the fresh value: after one further `move_made` (white live with
5s while the stale `displayed_wtime` = 2s would also not flag), a tick 6s
later raises the flag on the fresh -1s extrapolation and writes `'6'`. -/
theorem black_flag_check_uses_stale_value :
    did_flag (2000000 - (3000000 - 0)) = true
  ∧ (time_keeper_step (initialize_clock init_chess_clock 2000 5000 0) 3000000).2
        = TickOutcome.rendered
  ∧ ((time_keeper_step (initialize_clock init_chess_clock 2000 5000 0) 3000000).1).game_over_event
        = false
  ∧ '7' ∉ ((time_keeper_step (initialize_clock init_chess_clock 2000 5000 0) 3000000).1).serial_out
  ∧ did_flag 2000000 = false
  ∧ (time_keeper_step (move_made (initialize_clock init_chess_clock 2000 5000 0) 0) 6000000).2
        = TickOutcome.raisedFlag true
  ∧ '6' ∈ ((time_keeper_step (move_made (initialize_clock init_chess_clock 2000 5000 0) 0) 6000000).1).serial_out := by
  decide

/-- C5: The reset prefix of `initialize_clock` sets the displayed times from
the millisecond snapshot, sets `white_to_move`, and clears `move_time` and
`time_left_at_move`, but it never clears `game_over_event`: re-initializing
after a finished game (here one ended by `black_won`) leaves
`game_over_event = true`, so the claim's "gameOver is cleared to false"
fails and the next `time_keeper` iteration exits at once.  (The full
`initialize_clock` then also runs the seeding `move_made`, after which
`move_time` and `time_left_at_move` are populated again.) -/
theorem initialize_does_not_clear_game_over :
    (black_won init_chess_clock).game_over_event = true
  ∧ (initialize_reset (black_won init_chess_clock) 2000 60000).game_over_event = true
  ∧ (initialize_reset (black_won init_chess_clock) 2000 60000).displayed_wtime = some 2000000
  ∧ (initialize_reset (black_won init_chess_clock) 2000 60000).displayed_btime = some 60000000
  ∧ (initialize_reset (black_won init_chess_clock) 2000 60000).white_to_move = true
  ∧ (initialize_reset (black_won init_chess_clock) 2000 60000).move_time = PAttr.val none
  ∧ (initialize_reset (black_won init_chess_clock) 2000 60000).time_left_at_move = none := by
  decide

/-- C6: When an iteration of `time_keeper` observes `game_over_event` set at
the top of the loop, it exits by raising the `NicLinkGameOver` exception
(lines 340-344) — the outcome `raisedGameOver` models that raise — not by a
normal stop path. -/
theorem tick_game_over_raises (cc : ChessClock) (now : Int)
    (h : cc.game_over_event = true) :
    time_keeper_step cc now = (cc, TickOutcome.raisedGameOver) := by
  simp [time_keeper_step, h]

/-- Witness for `tick_game_over_raises`: a game just ended by `black_won`
has `game_over_event` set, and the next `time_keeper` iteration raises. -/
theorem tick_game_over_raises_witness :
    (black_won init_chess_clock).game_over_event = true
  ∧ time_keeper_step (black_won init_chess_clock) 0
        = (black_won init_chess_clock, TickOutcome.raisedGameOver) :=
  ⟨by decide, tick_game_over_raises (black_won init_chess_clock) 0 (by decide)⟩

/-- C7: Each payload-free command writes exactly its reserved code byte to
the serial port — `'2'` GAME_OVER, `'4'` NEW_GAME, `'5'` SPLASH, `'6'`
WHITE_WON, `'7'` BLACK_WON, `'8'` DRAWN, `'@'` HELLO (the last modelled from
the spec's wire table, since the source has no HELLO emitter) — and
`send_string` (SHOW_TEXT) writes the code byte `'3'` followed by the frame
bytes. -/
theorem protocol_command_bytes (cc : ChessClock) (message : List Char) :
    (game_over cc true).serial_out = cc.serial_out ++ ['2']
  ∧ (start_new_game cc).serial_out = cc.serial_out ++ ['4']
  ∧ (show_splash cc).serial_out = cc.serial_out ++ ['5']
  ∧ (white_won cc).serial_out = cc.serial_out ++ ['6']
  ∧ (black_won cc).serial_out = cc.serial_out ++ ['7']
  ∧ (drawn_game cc).serial_out = cc.serial_out ++ ['8']
  ∧ (hello cc).serial_out = cc.serial_out ++ ['@']
  ∧ (send_string cc message).serial_out = cc.serial_out ++ '3' :: message := by
  refine ⟨?_, rfl, rfl, ?_, ?_, ?_, rfl, rfl⟩ <;>
    simp [game_over, white_won, black_won, drawn_game]

/-- C8: Every rendered frame is the white line followed by the black line,
each line independently truncated to `lcd_length` characters when longer and
space-padded to `lcd_length` when shorter — `fit_lcd n line` always equals
`line.take n ++ replicate (n - line.length) ' '` and has length exactly
`n` — so the whole frame has length exactly `2 * lcd_length`, the configured
width being 16 after `__init__`. -/
theorem display_frame_fixed_width :
    (∀ (n : Nat) (line : List Char),
        fit_lcd n line = line.take n ++ List.replicate (n - line.length) ' '
      ∧ (fit_lcd n line).length = n)
  ∧ (∀ (cc : ChessClock) (wtime btime : Int),
        (create_timestamp cc wtime btime).2
            = fit_lcd cc.lcd_length (('W' :: ": ".data) ++ tdStr wtime)
              ++ fit_lcd cc.lcd_length (('B' :: ": ".data) ++ tdStr btime)
      ∧ ((create_timestamp cc wtime btime).2).length = 2 * cc.lcd_length)
  ∧ init_chess_clock.lcd_length = 16 := by
  refine ⟨fun n line => ⟨fit_lcd_eq n line, fit_lcd_length n line⟩,
    fun cc wtime btime => ⟨rfl, ?_⟩, rfl⟩
  show (fit_lcd cc.lcd_length _ ++ fit_lcd cc.lcd_length _).length = 2 * cc.lcd_length
  rw [List.length_append, fit_lcd_length, fit_lcd_length]
  omega

/-- C9 counterexample: on a freshly constructed `ChessClock` — before any
`initialize_clock` or `move_made` — a `time_keeper` iteration is not a
failure-free no-op even though `time_left_at_move` is absent and the game is
not over: `__init__` never binds `self.move_time`, so the very first guard
`chess_clock.move_time is None` raises `AttributeError` (outcome
`attrError`), refuting "never raises a failure". -/
theorem tick_before_initialize_attr_error :
    init_chess_clock.move_time = PAttr.unbound
  ∧ init_chess_clock.time_left_at_move = none
  ∧ init_chess_clock.game_over_event = false
  ∧ (time_keeper_step init_chess_clock 0).2 = TickOutcome.attrError := by
  decide

/-- C9 (amended): once the `move_time` attribute has been bound (every
`initialize_clock` or `move_made` call binds it) and the game-over flag is
not set, a tick with `move_time = None` or `time_left_at_move = None` is a
pure no-op: it returns the state unchanged and merely sleeps. -/
theorem tick_partial_state_noop (cc : ChessClock) (now : Int)
    (hgo : cc.game_over_event = false)
    (hbound : cc.move_time ≠ PAttr.unbound)
    (habs : cc.move_time = PAttr.val none ∨ cc.time_left_at_move = none) :
    time_keeper_step cc now = (cc, TickOutcome.sleep) := by
  unfold time_keeper_step
  rw [hgo]
  simp only [Bool.false_eq_true, if_false]
  cases hmt : cc.move_time with
  | unbound => exact absurd hmt hbound
  | val v =>
    cases v with
    | none => rfl
    | some t =>
      rcases habs with h1 | h2
      · rw [hmt] at h1
        exact absurd h1 (by simp)
      · rw [h2]

/-- Witness for `tick_partial_state_noop`: right after the reset prefix of
`initialize_clock` (before its seeding `move_made`), `move_time` is bound
and `None`, the game-over flag is clear, and the tick is a sleeping no-op. -/
theorem tick_partial_state_noop_witness :
    (initialize_reset init_chess_clock 2000 60000).game_over_event = false
  ∧ (initialize_reset init_chess_clock 2000 60000).move_time ≠ PAttr.unbound
  ∧ ((initialize_reset init_chess_clock 2000 60000).move_time = PAttr.val none
      ∨ (initialize_reset init_chess_clock 2000 60000).time_left_at_move = none)
  ∧ time_keeper_step (initialize_reset init_chess_clock 2000 60000) 0
        = (initialize_reset init_chess_clock 2000 60000, TickOutcome.sleep) :=
  ⟨by decide, by decide, Or.inl (by decide),
    tick_partial_state_noop (initialize_reset init_chess_clock 2000 60000) 0
      (by decide) (by decide) (Or.inl (by decide))⟩

/-- C10: `create_timestamp` overwrites the stored `displayed_wtime` and
`displayed_btime` with its two arguments (lines 302-304) before building the
frame, so every render — `updateLCD` included — rewrites the authoritative
stored times to exactly the values it renders and sends.  (The `time_lock`
critical section is not modelled; the embedding is single-threaded.) -/
theorem create_timestamp_rewrites_stored_times (cc : ChessClock) (wtime btime : Int) :
    ((create_timestamp cc wtime btime).1).displayed_wtime = some wtime
  ∧ ((create_timestamp cc wtime btime).1).displayed_btime = some btime
  ∧ (updateLCD cc wtime btime).displayed_wtime = some wtime
  ∧ (updateLCD cc wtime btime).displayed_btime = some btime
  ∧ (updateLCD cc wtime btime).serial_out
        = cc.serial_out ++ '3' :: (create_timestamp cc wtime btime).2 :=
  ⟨rfl, rfl, rfl, rfl, rfl⟩
